import Mathlib

/-
Verification of the Ruby language-server binary resolution routine
(src/src/language_servers/language_server.rs) as a shallow embedding.

The embedding translates the LIVE code of language_server_binary and
language_server_command. Sections of the source that are commented out
(the bundler wrapper branch, the exit-status check) are dead code and are
therefore absent from the embedding; several claims below are settled as
divergences between the specified precedence chain and this live code.
-/

namespace ZedRuby

/-- Mirrors zed_extension_api::process::Output: exit status plus captured
output streams of an external process. -/
structure Output where
  status : Int
  stdout : String
  stderr : String
deriving DecidableEq, Repr

/-- Mirrors struct LanguageServerBinary of the source: path plus optional
argument list and optional environment list. -/
structure LanguageServerBinary where
  path : String
  args : Option (List String)
  env : Option (List (String × String))
deriving DecidableEq, Repr

/-- Mirrors zed::Command: the fully populated command descriptor handed to
the host runtime. -/
structure Command where
  command : String
  args : List String
  env : List (String × String)
deriving DecidableEq, Repr

/-- Mirrors the binary part of zed LspSettings: optional explicit path and
optional explicit argument list. -/
structure BinarySettings where
  path : Option String
  arguments : Option (List String)
deriving DecidableEq, Repr

/-- The projection of the free-form settings map that the source reads:
the single lookup is settings[use_bundler].as_bool(), an optional Bool. -/
structure SettingsMap where
  use_bundler : Option Bool
deriving DecidableEq, Repr

/-- Mirrors zed LspSettings as consumed by the source: an optional binary
section and an optional settings map. -/
structure LspSettings where
  binary : Option BinarySettings
  settings : Option SettingsMap
deriving DecidableEq, Repr

/-- Default body of LanguageServer::default_use_bundler in the trait. -/
def trait_default_use_bundler : Bool :=
  true

/-- Default body of LanguageServer::get_executable_args in the trait. -/
def trait_get_executable_args : List String :=
  []

/-- A server type implementing the LanguageServer trait: the three fixed
identifiers plus the two overridable items, whose defaults are the trait
default bodies. -/
structure ServerType where
  SERVER_ID : String
  EXECUTABLE_NAME : String
  GEM_NAME : String
  default_use_bundler : Bool := trait_default_use_bundler
  get_executable_args : List String := trait_get_executable_args
deriving DecidableEq, Repr

/-- The worktree capability as consumed by the source: the result of
LspSettings::for_worktree for this server, and executable lookup. -/
structure Worktree where
  lsp_settings : Except String LspSettings
  which : String → Option String

/-- External effects consumed by the resolution routine:
std::env::current_dir (an error carries the io error text rendered by
Display), and running the gem install command with a given GEM_HOME
(an error means the process could not be launched). -/
structure World where
  current_dir : Except String String
  gem_install : String → Except String Output

/-- Record of one external command the routine executed. -/
structure RanCommand where
  program : String
  cmd_args : List String
  cmd_env : List (String × String)
deriving DecidableEq, Repr

/-- The tail of language_server_binary after the explicit-path check has
not fired: computes use_bundler (which the live code then never reads),
determines the current directory, runs gem install, and on success builds
the descriptor with the hardcoded solargraph path. Returns the result
together with the list of external commands executed. -/
def resolve_without_explicit_path (S : ServerType) (lsp_settings : LspSettings)
    (world : World) : Except String LanguageServerBinary × List RanCommand :=
  let use_bundler :=
    (lsp_settings.settings.bind SettingsMap.use_bundler).getD S.default_use_bundler
  let _ := use_bundler
  match world.current_dir with
  | Except.error e => (Except.error ("Failed to get current directory: " ++ e), [])
  | Except.ok current_directory =>
    let gem_cmd : RanCommand :=
      ⟨"gem",
       ["install", "--no-user-install", "--no-format-executable", "--no-document",
        S.GEM_NAME],
       [("GEM_HOME", current_directory)]⟩
    match world.gem_install current_directory with
    | Except.error e => (Except.error e, [gem_cmd])
    | Except.ok _output =>
      (Except.ok
        ⟨current_directory ++ "/bin/solargraph",
         some S.get_executable_args,
         some [("GEM_PATH", current_directory ++ ":$GEM_PATH")]⟩,
       [gem_cmd])

/-- Embedding of the live body of language_server_binary: propagate a
settings-lookup failure, return an explicit binary path verbatim when set,
otherwise fall through to the unconditional gem install. -/
def language_server_binary (S : ServerType) (W : Worktree) (world : World) :
    Except String LanguageServerBinary × List RanCommand :=
  match W.lsp_settings with
  | Except.error e => (Except.error e, [])
  | Except.ok lsp_settings =>
    match lsp_settings.binary with
    | some binary_settings =>
      match binary_settings.path with
      | some path =>
        (Except.ok ⟨path, binary_settings.arguments, none⟩, [])
      | none => resolve_without_explicit_path S lsp_settings world
    | none => resolve_without_explicit_path S lsp_settings world

/-- Embedding of language_server_command: resolve the binary, then fill
missing optional fields with the defaults of the server type. -/
def language_server_command (S : ServerType) (W : Worktree) (world : World) :
    Except String Command × List RanCommand :=
  match language_server_binary S W world with
  | (Except.error e, tr) => (Except.error e, tr)
  | (Except.ok binary, tr) =>
    (Except.ok
      ⟨binary.path,
       binary.args.getD S.get_executable_args,
       binary.env.getD []⟩,
     tr)

/-- The TestServer type defined in the tests of the source file: overrides
get_executable_args, keeps the default use_bundler. -/
def TestServer : ServerType :=
  ⟨"test-server", "test-exe", "test", trait_default_use_bundler, ["--test-arg"]⟩

/-- Claim C1: for every settings snapshot whose binary settings specify an
explicit path, the resolution routine returns a command whose executable
path is that path unchanged, whose argument list is the explicitly given
arguments if present and otherwise the default argument list of the server
type, and whose environment variable list is empty. -/
theorem c1_explicit_path (S : ServerType) (W : Worktree) (world : World)
    (s : LspSettings) (bs : BinarySettings) (p : String)
    (hs : W.lsp_settings = Except.ok s)
    (hb : s.binary = some bs)
    (hp : bs.path = some p) :
    (language_server_command S W world).1 =
      Except.ok ⟨p, bs.arguments.getD S.get_executable_args, []⟩ := by
  simp only [language_server_command, language_server_binary, hs, hb, hp,
    Option.getD_none]

/-- Witness for C1 at a concrete snapshot with an explicit path and
explicit arguments. -/
theorem c1_explicit_path_witness :
    (language_server_command TestServer
        ⟨Except.ok ⟨some ⟨some "/opt/bin/srv", some ["-v"]⟩, none⟩, fun _ => none⟩
        ⟨Except.ok "/w", fun _ => Except.error "unused"⟩).1 =
      Except.ok ⟨"/opt/bin/srv", ["-v"], []⟩ :=
  c1_explicit_path TestServer
    ⟨Except.ok ⟨some ⟨some "/opt/bin/srv", some ["-v"]⟩, none⟩, fun _ => none⟩
    ⟨Except.ok "/w", fun _ => Except.error "unused"⟩
    ⟨some ⟨some "/opt/bin/srv", some ["-v"]⟩, none⟩
    ⟨some "/opt/bin/srv", some ["-v"]⟩
    "/opt/bin/srv" rfl rfl rfl

/-- Claim C6: a server type that overrides neither the default argument
list nor the dependency-manager toggle gets the empty argument list and a
toggle defaulting to true. -/
theorem c6_trait_defaults (S : ServerType)
    (hb : S.default_use_bundler = trait_default_use_bundler)
    (ha : S.get_executable_args = trait_get_executable_args) :
    S.default_use_bundler = true ∧ S.get_executable_args = [] :=
  ⟨hb, ha⟩

/-- Witness for C6 at a concrete server type taking both trait defaults. -/
theorem c6_trait_defaults_witness :
    (ServerType.mk "srv" "srv-exe" "srv-gem" trait_default_use_bundler
        trait_get_executable_args).default_use_bundler = true ∧
    (ServerType.mk "srv" "srv-exe" "srv-gem" trait_default_use_bundler
        trait_get_executable_args).get_executable_args = [] :=
  c6_trait_defaults
    (ServerType.mk "srv" "srv-exe" "srv-gem" trait_default_use_bundler
      trait_get_executable_args) rfl rfl

/-- Claim C7: for every settings snapshot and worktree the resolution
routine returns either an explicit error or a fully populated command
descriptor in which missing optional fields of the resolved binary were
replaced by the defaults of the server type; never a partially filled
result. -/
theorem c7_fully_populated_or_error (S : ServerType) (W : Worktree) (world : World) :
    (∃ e, (language_server_command S W world).1 = Except.error e) ∨
    (∃ b, (language_server_binary S W world).1 = Except.ok b ∧
      (language_server_command S W world).1 =
        Except.ok ⟨b.path, b.args.getD S.get_executable_args, b.env.getD []⟩) := by
  unfold language_server_command
  rcases h : language_server_binary S W world with ⟨r, tr⟩
  cases r with
  | error e => exact Or.inl ⟨e, rfl⟩
  | ok b => exact Or.inr ⟨b, rfl, rfl⟩

/-- Claim C8: when the fallback is taken (no explicit binary path) and the
current working directory cannot be determined, the routine fails with the
formatted error string and the trace of executed external commands is
empty, so no install command is run. -/
theorem c8_cwd_failure (S : ServerType) (W : Worktree) (world : World)
    (s : LspSettings) (e : String)
    (hs : W.lsp_settings = Except.ok s)
    (hnopath : s.binary.bind BinarySettings.path = none)
    (hcwd : world.current_dir = Except.error e) :
    language_server_binary S W world =
      (Except.error ("Failed to get current directory: " ++ e), []) := by
  cases hb : s.binary with
  | none =>
    simp only [language_server_binary, hs, hb, resolve_without_explicit_path, hcwd]
  | some bs =>
    have hp : bs.path = none := by
      rw [hb] at hnopath
      simpa using hnopath
    simp only [language_server_binary, hs, hb, hp, resolve_without_explicit_path, hcwd]

/-- Witness for C8: concrete snapshot without a binary section and a world
whose current-directory query fails. -/
theorem c8_cwd_failure_witness :
    language_server_binary TestServer
        ⟨Except.ok ⟨none, none⟩, fun _ => none⟩
        ⟨Except.error "io down", fun _ => Except.error "unused"⟩ =
      (Except.error ("Failed to get current directory: " ++ "io down"), []) :=
  c8_cwd_failure TestServer
    ⟨Except.ok ⟨none, none⟩, fun _ => none⟩
    ⟨Except.error "io down", fun _ => Except.error "unused"⟩
    ⟨none, none⟩ "io down" rfl rfl rfl

/-- Claim C9: two settings snapshots that agree on the binary section and
lack an explicit binary path yield the same resolution result regardless
of their settings maps, so the computed use_bundler toggle has no
influence on the outcome of the live code. -/
theorem c9_use_bundler_has_no_influence (S : ServerType) (world : World)
    (wh : String → Option String) (s1 s2 : LspSettings)
    (hbin : s1.binary = s2.binary)
    (hnopath : s1.binary.bind BinarySettings.path = none) :
    language_server_command S ⟨Except.ok s1, wh⟩ world =
      language_server_command S ⟨Except.ok s2, wh⟩ world := by
  cases hb : s1.binary with
  | none =>
    simp only [language_server_command, language_server_binary, hb, ← hbin,
      resolve_without_explicit_path]
  | some bs =>
    have hp : bs.path = none := by
      rw [hb] at hnopath
      simpa using hnopath
    simp only [language_server_command, language_server_binary, hb, ← hbin, hp,
      resolve_without_explicit_path]

/-- Witness for C9: snapshots with use_bundler true and false and no
binary section resolve identically. -/
theorem c9_use_bundler_has_no_influence_witness :
    language_server_command TestServer
        ⟨Except.ok ⟨none, some ⟨some true⟩⟩, fun _ => none⟩
        ⟨Except.ok "/w", fun _ => Except.ok ⟨0, "", ""⟩⟩ =
      language_server_command TestServer
        ⟨Except.ok ⟨none, some ⟨some false⟩⟩, fun _ => none⟩
        ⟨Except.ok "/w", fun _ => Except.ok ⟨0, "", ""⟩⟩ :=
  c9_use_bundler_has_no_influence TestServer
    ⟨Except.ok "/w", fun _ => Except.ok ⟨0, "", ""⟩⟩
    (fun _ => none) ⟨none, some ⟨some true⟩⟩ ⟨none, some ⟨some false⟩⟩ rfl rfl

/-- Claim C10: when the fallback install succeeds, the environment of the
returned descriptor is exactly one variable, GEM_PATH, whose value is the
current directory followed by the literal unexpanded text :$GEM_PATH. -/
theorem c10_gem_path_literal (S : ServerType) (W : Worktree) (world : World)
    (s : LspSettings) (cwd : String) (out : Output)
    (hs : W.lsp_settings = Except.ok s)
    (hnopath : s.binary.bind BinarySettings.path = none)
    (hcwd : world.current_dir = Except.ok cwd)
    (hout : world.gem_install cwd = Except.ok out) :
    ∃ b, (language_server_binary S W world).1 = Except.ok b ∧
      b.env = some [("GEM_PATH", cwd ++ ":$GEM_PATH")] := by
  refine ⟨⟨cwd ++ "/bin/solargraph", some S.get_executable_args,
    some [("GEM_PATH", cwd ++ ":$GEM_PATH")]⟩, ?_, rfl⟩
  cases hb : s.binary with
  | none =>
    simp only [language_server_binary, hs, hb, resolve_without_explicit_path,
      hcwd, hout]
  | some bs =>
    have hp : bs.path = none := by
      rw [hb] at hnopath
      simpa using hnopath
    simp only [language_server_binary, hs, hb, hp, resolve_without_explicit_path,
      hcwd, hout]

/-- Witness for C10 at a concrete successful install. -/
theorem c10_gem_path_literal_witness :
    ∃ b, (language_server_binary TestServer
        ⟨Except.ok ⟨none, none⟩, fun _ => none⟩
        ⟨Except.ok "/w", fun _ => Except.ok ⟨0, "", ""⟩⟩).1 = Except.ok b ∧
      b.env = some [("GEM_PATH", "/w" ++ ":$GEM_PATH")] :=
  c10_gem_path_literal TestServer
    ⟨Except.ok ⟨none, none⟩, fun _ => none⟩
    ⟨Except.ok "/w", fun _ => Except.ok ⟨0, "", ""⟩⟩
    ⟨none, none⟩ "/w" ⟨0, "", ""⟩ rfl rfl rfl rfl

/-- Claim C2 is violated by the live code: with no explicit binary path,
use_bundler true and the bundle wrapper present at /usr/bin/bundle, the
routine does not return the wrapper invocation; the wrapper branch is dead
code and the result is the gem-install descriptor. -/
theorem c2_wrapper_branch_dead :
    (language_server_binary TestServer
        ⟨Except.ok ⟨none, some ⟨some true⟩⟩,
         fun c => if c = "bundle" then some "/usr/bin/bundle" else none⟩
        ⟨Except.ok "/work", fun _ => Except.ok ⟨0, "", ""⟩⟩).1 =
      Except.ok ⟨"/work/bin/solargraph", some ["--test-arg"],
        some [("GEM_PATH", "/work:$GEM_PATH")]⟩ ∧
    (Worktree.which
      ⟨Except.ok ⟨none, some ⟨some true⟩⟩,
       fun c => if c = "bundle" then some "/usr/bin/bundle" else none⟩ "bundle"
      = some "/usr/bin/bundle") ∧
    "/work/bin/solargraph" ≠ "/usr/bin/bundle" := by
  refine ⟨rfl, ?_, ?_⟩ <;> decide

/-- Claim C3 is violated by the live code: with no explicit binary path,
use_bundler true and the bundle wrapper absent from the search path, the
routine does not fail with an error naming the wrapper; it succeeds with
the gem-install descriptor. -/
theorem c3_no_wrapper_error :
    (language_server_binary TestServer
        ⟨Except.ok ⟨none, some ⟨some true⟩⟩, fun _ => none⟩
        ⟨Except.ok "/work", fun _ => Except.ok ⟨0, "", ""⟩⟩).1 =
      Except.ok ⟨"/work/bin/solargraph", some ["--test-arg"],
        some [("GEM_PATH", "/work:$GEM_PATH")]⟩ ∧
    (Worktree.which ⟨Except.ok ⟨none, some ⟨some true⟩⟩, fun _ => none⟩ "bundle"
      = none) :=
  ⟨rfl, rfl⟩

/-- Claim C4 is violated by the live code: for the TestServer type, whose
executable name is test-exe, a successful install with exit status 0 still
yields the hardcoded path /work/bin/solargraph instead of the path built
from the executable name. -/
theorem c4_hardcoded_solargraph :
    (language_server_binary TestServer
        ⟨Except.ok ⟨none, none⟩, fun _ => none⟩
        ⟨Except.ok "/work", fun _ => Except.ok ⟨0, "", ""⟩⟩).1 =
      Except.ok ⟨"/work/bin/solargraph", some ["--test-arg"],
        some [("GEM_PATH", "/work:$GEM_PATH")]⟩ ∧
    TestServer.EXECUTABLE_NAME = "test-exe" ∧
    "/work/bin/solargraph" ≠ "/work" ++ "/bin/" ++ TestServer.EXECUTABLE_NAME := by
  refine ⟨rfl, rfl, ?_⟩
  decide

/-- Claim C5 is violated by the live code: the exit-status check is
commented out, so an install that exits with status 1 and standard error
text still produces a success, not an error containing that text. -/
theorem c5_status_ignored :
    (language_server_binary TestServer
        ⟨Except.ok ⟨none, none⟩, fun _ => none⟩
        ⟨Except.ok "/work", fun _ => Except.ok ⟨1, "", "install failed: boom"⟩⟩).1 =
      Except.ok ⟨"/work/bin/solargraph", some ["--test-arg"],
        some [("GEM_PATH", "/work:$GEM_PATH")]⟩ ∧
    (World.gem_install
        ⟨Except.ok "/work", fun _ => Except.ok ⟨1, "", "install failed: boom"⟩⟩
        "/work" = Except.ok ⟨1, "", "install failed: boom"⟩) :=
  ⟨rfl, rfl⟩

end ZedRuby
